import Mathlib

/-!
# The Fabric `UIManager` facade

A shallow embedding of `ReactCommon/fabric/uimanager/UIManager.cpp`.

The facade is a thin orchestration layer.  Its collaborators (shadow nodes, fragments, component
descriptors, the shadow tree registry, the shadow tree with its commit loop, the delegate) are
declared in headers that are not part of the source tree at hand.  They appear here in one of two
forms:

* as *parameters* (`ComponentDescriptor`, `Externals`): arbitrary functions the facade calls;
* as definitions *modelled from the specification*, each marked so in its documentation.

Calls whose only observable effect is the call itself (delegate notifications, `tryCommit`
submissions) are recorded in explicit call lists, so that "is called exactly once with these
arguments" is a statement about data.

C++ lambdas that capture by reference are embedded as state-passing functions over the captured
variables (the *frame*), so that a write to a captured variable is visible in the embedding.
-/

namespace facebook.react

/-! ## Identifiers and opaque payloads -/

/-- Node identifier (`Tag`), an opaque integer. -/
abbrev Tag := Int

/-- Surface identifier (`SurfaceId`), an opaque integer. -/
abbrev SurfaceId := Int

/-- Component type name (`ComponentName`). -/
abbrev ComponentName := String

/-- Clock reading as returned by `getTime()` (a C++ `long`; only stored and passed on). -/
abbrev Time := Int

/-- Externally produced, uninterpreted property bag (`RawProps`). -/
structure RawProps where
  blob : Nat
deriving DecidableEq, Repr

/-- Parsed properties (`SharedProps`), opaque to the facade. -/
structure Props where
  blob : Nat
deriving DecidableEq, Repr

/-- Externally produced, uninterpreted state payload (`StateData::Shared`). -/
structure StateData where
  blob : Nat
deriving DecidableEq, Repr

/-- Component state (`State::Shared`), opaque to the facade. -/
structure State where
  blob : Nat
deriving DecidableEq, Repr

/-- Event target handle (`SharedEventTarget`), opaque to the facade. -/
structure EventTarget where
  blob : Nat
deriving DecidableEq, Repr

/-- Event emitter (`SharedEventEmitter`), opaque to the facade. -/
structure EventEmitter where
  blob : Nat
deriving DecidableEq, Repr

/-- Local data attached to a node (`SharedLocalData`), opaque to the facade. -/
structure LocalData where
  blob : Nat
deriving DecidableEq, Repr

/-- Layout metrics (`LayoutMetrics`), opaque to the facade. -/
structure LayoutMetrics where
  blob : Nat
deriving DecidableEq, Repr

/-- Modelled from the spec: the constant `EmptyLayoutMetrics` is declared outside the source at
hand; the specification calls it "an empty/zero sentinel metrics value". -/
def EmptyLayoutMetrics : LayoutMetrics := ⟨0⟩

/-- Fatal conditions named by the specification. -/
inductive Error where
  | ComponentNotFound
  | IllegalMutation
  | CommitFailed
deriving DecidableEq, Repr

/-! ## Shadow nodes and fragments -/

/-- Modelled from the spec: the class `ShadowNode` is declared outside the source at hand.  The
specification gives the immutable record
`{ id, surfaceRootId, props, eventEmitter, children, state, componentType }`; `localData` is the
remaining field a fragment can override.  `published` is the status of the node object itself:
false while the node is in its builder phase, "under exclusive construction", and true "once a
Node has been referenced by a successful commit", from when on "it is permanently immutable". -/
inductive ShadowNode where
  | mk (tag : Tag) (surfaceId : SurfaceId) (props : Props) (eventEmitter : EventEmitter)
      (children : List ShadowNode) (localData : LocalData) (state : State)
      (componentType : ComponentName) (published : Bool)
deriving Repr

namespace ShadowNode

/-- Identifier of the node. -/
def getTag : ShadowNode → Tag
  | mk t _ _ _ _ _ _ _ _ => t

/-- Surface the node belongs to. -/
def getSurfaceId : ShadowNode → SurfaceId
  | mk _ s _ _ _ _ _ _ _ => s

/-- Properties of the node. -/
def getProps : ShadowNode → Props
  | mk _ _ p _ _ _ _ _ _ => p

/-- Event emitter of the node. -/
def getEventEmitter : ShadowNode → EventEmitter
  | mk _ _ _ e _ _ _ _ _ => e

/-- Ordered children of the node. -/
def getChildren : ShadowNode → List ShadowNode
  | mk _ _ _ _ cs _ _ _ _ => cs

/-- Local data of the node. -/
def getLocalData : ShadowNode → LocalData
  | mk _ _ _ _ _ l _ _ _ => l

/-- State of the node. -/
def getState : ShadowNode → State
  | mk _ _ _ _ _ _ st _ _ => st

/-- Component type of the node. -/
def getComponentName : ShadowNode → ComponentName
  | mk _ _ _ _ _ _ _ c _ => c

/-- Whether the node object has been published by a successful commit. -/
def isPublished : ShadowNode → Bool
  | mk _ _ _ _ _ _ _ _ pub => pub

mutual
/-- Structural equality test on nodes. -/
def beq : ShadowNode → ShadowNode → Bool
  | mk t s p e cs l st c pub, mk t2 s2 p2 e2 cs2 l2 st2 c2 pub2 =>
    decide (t = t2) && decide (s = s2) && decide (p = p2) && decide (e = e2) &&
      beqList cs cs2 && decide (l = l2) && decide (st = st2) && decide (c = c2) &&
      decide (pub = pub2)
/-- Structural equality test on lists of nodes. -/
def beqList : List ShadowNode → List ShadowNode → Bool
  | [], [] => true
  | a :: as, b :: bs => beq a b && beqList as bs
  | _, _ => false
end

mutual
/-- Whether `target` occurs in the tree rooted at the first argument (the root included). -/
def reaches : ShadowNode → ShadowNode → Bool
  | mk t s p e cs l st c pub, target =>
    beq (mk t s p e cs l st c pub) target || reachesAny cs target
/-- Whether `target` occurs in one of the given trees. -/
def reachesAny : List ShadowNode → ShadowNode → Bool
  | [], _ => false
  | a :: as, target => reaches a target || reachesAny as target
end

mutual
/-- Modelled from the spec: what publication does to a tree.  A successful commit references the
new root and, through it, every node below it; each of them is published from then on. -/
def publish : ShadowNode → ShadowNode
  | mk t s p e cs l st c _ => mk t s p e (publishAll cs) l st c true
/-- Publication of a list of trees. -/
def publishAll : List ShadowNode → List ShadowNode
  | [] => []
  | a :: as => publish a :: publishAll as
end

mutual
/-- Whether the node and every node below it is published. -/
def allPublished : ShadowNode → Bool
  | mk _ _ _ _ cs _ _ _ pub => pub && allPublishedIn cs
/-- Whether every node of the given trees is published. -/
def allPublishedIn : List ShadowNode → Bool
  | [] => true
  | a :: as => allPublished a && allPublishedIn as
end

end ShadowNode

/-- Modelled from the spec: the struct `ShadowNodeFragment` is declared outside the source at
hand.  The specification gives "a sparse set of optional overrides
`{ id?, surfaceRootId?, props?, eventEmitter?, children?, localData?, state? }`", a field-level
optional-override pattern.  Fields omitted from an initialiser list are unset. -/
structure ShadowNodeFragment where
  tag : Option Tag := none
  rootTag : Option SurfaceId := none
  props : Option Props := none
  eventEmitter : Option EventEmitter := none
  children : Option (List ShadowNode) := none
  localData : Option LocalData := none
  state : Option State := none

namespace ShadowNodeFragment

/-- Placeholder for an unset `tag`. -/
def tagPlaceholder : Option Tag := none

/-- Placeholder for an unset surface id. -/
def surfaceIdPlaceholder : Option SurfaceId := none

/-- Placeholder for unset `props`. -/
def propsPlaceholder : Option Props := none

/-- Placeholder for an unset event emitter. -/
def eventEmitterPlaceholder : Option EventEmitter := none

/-- Placeholder for unset `children`. -/
def childrenPlaceholder : Option (List ShadowNode) := none

/-- Placeholder for unset local data. -/
def localDataPlaceholder : Option LocalData := none

/-- Placeholder for unset `state`. -/
def statePlaceholder : Option State := none

end ShadowNodeFragment

/-- Modelled from the spec: `ShadowNode::clone(fragment)` is defined outside the source at hand.
The specification: cloning "produces a new Node applying the Fragment's overrides on top of the
source node's fields"; "any field left unset means retain value from the node being cloned".
The clone is a new node object, not yet referenced by any commit, so it is unpublished. -/
def ShadowNode.clone (node : ShadowNode) (fragment : ShadowNodeFragment) : ShadowNode :=
  ShadowNode.mk
    (fragment.tag.getD node.getTag)
    (fragment.rootTag.getD node.getSurfaceId)
    (fragment.props.getD node.getProps)
    (fragment.eventEmitter.getD node.getEventEmitter)
    (fragment.children.getD node.getChildren)
    (fragment.localData.getD node.getLocalData)
    (fragment.state.getD node.getState)
    node.getComponentName
    false

/-- The root of a committed tree (`RootShadowNode`), itself a shadow node. -/
abbrev RootShadowNode := ShadowNode

/-! ## Component descriptors -/

/-- The component descriptor capability (`ComponentDescriptor`), external to the facade: every
operation the facade calls on it is a parameter. -/
structure ComponentDescriptor where
  cloneProps : Option Props → RawProps → Props
  createInitialState : Props → State
  createState : State → StateData → State
  createEventEmitter : EventTarget → Tag → EventEmitter
  createShadowNode : ShadowNodeFragment → ShadowNode
  cloneShadowNode : ShadowNode → ShadowNodeFragment → ShadowNode

/-- Modelled from the spec: the class `ComponentDescriptorRegistry` is declared outside the
source at hand.  The specification: "lookup by component-type name → descriptor capability". -/
structure ComponentDescriptorRegistry where
  descriptors : List (ComponentName × ComponentDescriptor)

/-- The descriptor registered under `name`, if any. -/
def ComponentDescriptorRegistry.find (registry : ComponentDescriptorRegistry)
    (name : ComponentName) : Option ComponentDescriptor :=
  registry.descriptors.lookup name

/-- Modelled from the spec: `ComponentDescriptorRegistry::at` is defined outside the source at
hand.  The specification: "lookup failure for an unknown type is a fatal `ComponentNotFound`
condition". -/
def ComponentDescriptorRegistry.at (registry : ComponentDescriptorRegistry)
    (name : ComponentName) : Except Error ComponentDescriptor :=
  match registry.find name with
  | some descriptor => Except.ok descriptor
  | none => Except.error Error.ComponentNotFound

/-! ## The delegate -/

/-- A notification received by the delegate. -/
inductive DelegateCall where
  | uiManagerDidCreateShadowNode (shadowNode : ShadowNode)
  | uiManagerDidFinishTransaction (surfaceId : SurfaceId) (rootChildren : List ShadowNode)
      (time : Time)

/-- The delegate capability (`UIManagerDelegate`), external to the facade.  It is represented by
the list of notifications it has received, oldest first. -/
structure UIManagerDelegate where
  received : List DelegateCall

namespace UIManagerDelegate

/-- Deliver `uiManagerDidCreateShadowNode`. -/
def uiManagerDidCreateShadowNode (delegate : UIManagerDelegate) (shadowNode : ShadowNode) :
    UIManagerDelegate :=
  { received := delegate.received ++ [DelegateCall.uiManagerDidCreateShadowNode shadowNode] }

/-- Deliver `uiManagerDidFinishTransaction`. -/
def uiManagerDidFinishTransaction (delegate : UIManagerDelegate) (surfaceId : SurfaceId)
    (rootChildren : List ShadowNode) (time : Time) : UIManagerDelegate :=
  { received := delegate.received ++
      [DelegateCall.uiManagerDidFinishTransaction surfaceId rootChildren time] }

end UIManagerDelegate

/-! ## The commit engine and the surface registry -/

/-- Modelled from the spec: the class `ShadowTree` (the commit engine) is declared outside the
source at hand.  The specification gives its state as
`{ surfaceId, committedRoot, generation }`. -/
structure ShadowTree where
  surfaceId : SurfaceId
  committedRoot : RootShadowNode
  generation : Nat

/-- A transform handed to `tryCommit`: a C++ lambda taking the current root and returning the new
root, or nothing (`nullptr`) to abort.  The lambda captures variables of the calling operation by
reference; `σ` is the type of those captured variables, and the transform returns their values
after its body has run. -/
abbrev Transform (σ : Type) := RootShadowNode → σ → Option RootShadowNode × σ

/-- A call received by a commit engine: which engine, the transform and start time it was handed,
and the values the captured variables had when the call was made. -/
inductive EngineCall (σ : Type) where
  | tryCommit (surfaceId : SurfaceId) (transform : Transform σ) (startTime : Time) (frame : σ)

/-- What is threaded through a registry visit: the captured variables of the calling operation
and the engine calls made so far, oldest first. -/
structure CommitContext (σ : Type) where
  frame : σ
  commits : List (EngineCall σ)

/-- Modelled from the spec: `ShadowTree::tryCommit` is defined outside the source at hand.  The
specification: (1) snapshot the committed root and generation; (2) invoke the transform on the
snapshot; (3) "if `transform` aborted, the whole operation returns a no-op result; nothing is
published"; (4) otherwise swap the committed root, conditioned on the generation being unchanged,
and increment the generation; the tree so published is referenced by a successful commit, so
its nodes are published from then on (section 4.1).  Step (5), the retry, is taken only when
another commit succeeded between (1) and (4); within one sequential call none does, so the swap
of step (4) succeeds at the first attempt.  The call itself is recorded in the context. -/
def ShadowTree.tryCommit {σ : Type} (shadowTree : ShadowTree) (transform : Transform σ)
    (startTime : Time) (ctx : CommitContext σ) : ShadowTree × CommitContext σ :=
  let attempt := transform shadowTree.committedRoot ctx.frame
  let ctx1 : CommitContext σ :=
    { frame := attempt.2
      commits := ctx.commits ++
        [EngineCall.tryCommit shadowTree.surfaceId transform startTime ctx.frame] }
  match attempt.1 with
  | none => (shadowTree, ctx1)
  | some newRoot =>
    ({ shadowTree with
        committedRoot := newRoot.publish
        generation := shadowTree.generation + 1 }, ctx1)

/-- Modelled from the spec: the class `ShadowTreeRegistry` is declared outside the source at
hand.  The specification: a "mapping surfaceId -> Commit Engine". -/
structure ShadowTreeRegistry where
  entries : List (SurfaceId × ShadowTree)

namespace ShadowTreeRegistry

/-- The engine registered under `surfaceId`, if any. -/
def find (registry : ShadowTreeRegistry) (surfaceId : SurfaceId) : Option ShadowTree :=
  registry.entries.lookup surfaceId

/-- Visit over the entries: the first entry with the key gets the callback. -/
def visitEntries {α : Type} (surfaceId : SurfaceId) (callback : ShadowTree → α → ShadowTree × α) :
    List (SurfaceId × ShadowTree) → α → List (SurfaceId × ShadowTree) × α
  | [], a => ([], a)
  | (key, shadowTree) :: rest, a =>
    if surfaceId = key then
      let r := callback shadowTree a
      ((key, r.1) :: rest, r.2)
    else
      let r := visitEntries surfaceId callback rest a
      ((key, shadowTree) :: r.1, r.2)

/-- Modelled from the spec: `ShadowTreeRegistry::visit` is defined outside the source at hand.
The specification: "`visit` looks up the engine and, if found, invokes the callback with a
read-only reference to the engine's commit API; if the surface id is unknown, `visit` is a silent
no-op".  The callback returns the engine as its commit API left it. -/
def visit {α : Type} (registry : ShadowTreeRegistry) (surfaceId : SurfaceId)
    (callback : ShadowTree → α → ShadowTree × α) (a : α) : ShadowTreeRegistry × α :=
  let r := visitEntries surfaceId callback registry.entries a
  ({ entries := r.1 }, r.2)

/-- Whether every committed tree of the registry consists of published nodes, as the trees a
commit engine publishes do. -/
def allPublished (registry : ShadowTreeRegistry) : Bool :=
  registry.entries.all (fun entry => entry.2.committedRoot.allPublished)

end ShadowTreeRegistry

/-- Operations the facade reaches through a node or a root and that are defined outside the
source at hand; each is a parameter. -/
structure Externals where
  /-- The getter `ShadowNode::getComponentDescriptor`. -/
  getComponentDescriptor : ShadowNode → ComponentDescriptor
  /-- The method `RootShadowNode::clone(oldShadowNode, newShadowNode)`; nothing when it yields
  `nullptr`. -/
  rootClone : RootShadowNode → ShadowNode → ShadowNode → Option RootShadowNode
  /-- Whether `dynamic_cast<const LayoutableShadowNode *>` succeeds on the node. -/
  isLayoutable : ShadowNode → Bool
  /-- The method `LayoutableShadowNode::getRelativeLayoutMetrics(ancestor)`. -/
  getRelativeLayoutMetrics : ShadowNode → ShadowNode → LayoutMetrics

/-- The cast `dynamic_cast<const LayoutableShadowNode *>(pointer)`.  The pointer form of the
cast does not fail: it yields null on a null pointer and on a node without the layout
capability. -/
def Externals.dynamicCastLayoutable (ext : Externals) (pointer : Option ShadowNode) :
    Option ShadowNode :=
  match pointer with
  | none => none
  | some node => if ext.isLayoutable node then some node else none

/-! ## The facade -/

/-- The facade object: its three members.  The two registries are dereferenced unconditionally by
the code, so they are present; the delegate is optional. -/
structure UIManager where
  componentDescriptorRegistry_ : ComponentDescriptorRegistry
  shadowTreeRegistry_ : ShadowTreeRegistry
  delegate_ : Option UIManagerDelegate

/-- What an operation of the facade leaves behind: its return value, the facade with its
collaborators as the operation left them, and the engine calls it made, oldest first. -/
structure Outcome (σ : Type) (α : Type) where
  value : α
  manager : UIManager
  commits : List (EngineCall σ)

/-- The variables captured by the transform of `setNativeProps` and of `updateState`. -/
structure LeafCapture where
  shadowNode : ShadowNode
  newShadowNode : ShadowNode

namespace UIManager

open ShadowNodeFragment

/-- The method `UIManager::createNode`. -/
def createNode (um : UIManager) (tag : Tag) (name : ComponentName) (surfaceId : SurfaceId)
    (rawProps : RawProps) (eventTarget : EventTarget) : Except Error ShadowNode × UIManager :=
  match ComponentDescriptorRegistry.at um.componentDescriptorRegistry_ name with
  | Except.error e => (Except.error e, um)
  | Except.ok componentDescriptor =>
    let props := componentDescriptor.cloneProps none rawProps
    let state := componentDescriptor.createInitialState props
    let shadowNode := componentDescriptor.createShadowNode
      { tag := some tag
        rootTag := some surfaceId
        props := some props
        eventEmitter := some (componentDescriptor.createEventEmitter eventTarget tag)
        children := childrenPlaceholder
        localData := localDataPlaceholder
        state := some state }
    match um.delegate_ with
    | some delegate =>
      (Except.ok shadowNode,
        { um with delegate_ := some (delegate.uiManagerDidCreateShadowNode shadowNode) })
    | none => (Except.ok shadowNode, um)

/-- The method `UIManager::cloneNode`; `rawProps` is a nullable pointer. -/
def cloneNode (_um : UIManager) (ext : Externals) (shadowNode : ShadowNode)
    (children : List ShadowNode) (rawProps : Option RawProps) : ShadowNode :=
  let componentDescriptor := ext.getComponentDescriptor shadowNode
  let clonedShadowNode := componentDescriptor.cloneShadowNode shadowNode
    { tag := tagPlaceholder
      rootTag := surfaceIdPlaceholder
      props :=
        match rawProps with
        | some raw => some (componentDescriptor.cloneProps (some shadowNode.getProps) raw)
        | none => propsPlaceholder
      eventEmitter := eventEmitterPlaceholder
      children := some children }
  clonedShadowNode

/-- The method `UIManager::completeSurface`; `now` is what `getTime()` returns. -/
def completeSurface (um : UIManager) (now : Time) (surfaceId : SurfaceId)
    (rootChildren : List ShadowNode) : Outcome Unit Unit :=
  match um.delegate_ with
  | some delegate =>
    { value := ()
      manager :=
        { um with
          delegate_ := some (delegate.uiManagerDidFinishTransaction surfaceId rootChildren now) }
      commits := [] }
  | none => { value := (), manager := um, commits := [] }

/-- The method `UIManager::setNativeProps`; `now` is what `getTime()` returns. -/
def setNativeProps (um : UIManager) (ext : Externals) (now : Time) (shadowNode : ShadowNode)
    (rawProps : RawProps) : Outcome LeafCapture Unit :=
  let startCommitTime := now
  let componentDescriptor := ext.getComponentDescriptor shadowNode
  let props := componentDescriptor.cloneProps (some shadowNode.getProps) rawProps
  let newShadowNode := shadowNode.clone
    { tag := tagPlaceholder
      rootTag := surfaceIdPlaceholder
      props := some props }
  let visited := um.shadowTreeRegistry_.visit shadowNode.getSurfaceId
    (fun shadowTree ctx =>
      shadowTree.tryCommit
        (fun oldRootShadowNode frame =>
          (ext.rootClone oldRootShadowNode frame.shadowNode frame.newShadowNode, frame))
        startCommitTime ctx)
    { frame := { shadowNode := shadowNode, newShadowNode := newShadowNode }, commits := [] }
  { value := ()
    manager := { um with shadowTreeRegistry_ := visited.1 }
    commits := visited.2.commits }

/-- The method `UIManager::getRelativeLayoutMetrics`; `ancestorShadowNode` is a nullable pointer and the one
variable the transform captures; `now` is what `getTime()` returns. -/
def getRelativeLayoutMetrics (um : UIManager) (ext : Externals) (now : Time)
    (shadowNode : ShadowNode) (ancestorShadowNode : Option ShadowNode) :
    Outcome (Option ShadowNode) LayoutMetrics :=
  let startCommitTime := now
  let visited : ShadowTreeRegistry × CommitContext (Option ShadowNode) :=
    match ancestorShadowNode with
    | none =>
      um.shadowTreeRegistry_.visit shadowNode.getSurfaceId
        (fun shadowTree ctx =>
          shadowTree.tryCommit
            (fun oldRootShadowNode _ => (none, some oldRootShadowNode))
            startCommitTime ctx)
        { frame := ancestorShadowNode, commits := [] }
    | some _ => (um.shadowTreeRegistry_, { frame := ancestorShadowNode, commits := [] })
  let ancestorShadowNode := visited.2.frame
  let layoutableShadowNode := ext.dynamicCastLayoutable (some shadowNode)
  let layoutableAncestorShadowNode := ext.dynamicCastLayoutable ancestorShadowNode
  let metrics :=
    match layoutableShadowNode, layoutableAncestorShadowNode with
    | some layoutable, some layoutableAncestor =>
      ext.getRelativeLayoutMetrics layoutable layoutableAncestor
    | _, _ => EmptyLayoutMetrics
  { value := metrics
    manager := { um with shadowTreeRegistry_ := visited.1 }
    commits := visited.2.commits }

/-- The method `UIManager::updateState`; `now` is what `getTime()` returns. -/
def updateState (um : UIManager) (ext : Externals) (now : Time) (shadowNode : ShadowNode)
    (rawStateData : StateData) : Outcome LeafCapture Unit :=
  let startCommitTime := now
  let componentDescriptor := ext.getComponentDescriptor shadowNode
  let state := componentDescriptor.createState shadowNode.getState rawStateData
  let newShadowNode := shadowNode.clone
    { tag := tagPlaceholder
      rootTag := surfaceIdPlaceholder
      props := propsPlaceholder
      eventEmitter := eventEmitterPlaceholder
      children := childrenPlaceholder
      localData := localDataPlaceholder
      state := some state }
  let visited := um.shadowTreeRegistry_.visit shadowNode.getSurfaceId
    (fun shadowTree ctx =>
      shadowTree.tryCommit
        (fun oldRootShadowNode frame =>
          (ext.rootClone oldRootShadowNode frame.shadowNode frame.newShadowNode, frame))
        startCommitTime ctx)
    { frame := { shadowNode := shadowNode, newShadowNode := newShadowNode }, commits := [] }
  { value := ()
    manager := { um with shadowTreeRegistry_ := visited.1 }
    commits := visited.2.commits }

end UIManager

/-- The transform an engine call was handed. -/
def EngineCall.transform {σ : Type} : EngineCall σ → Transform σ
  | EngineCall.tryCommit _ transform _ _ => transform

/-! ## The layout query as the specification words it -/

namespace Spec

/-- The effective ancestor in the words of the specification: the given ancestor, or, when it is
omitted, the currently committed root of the node's surface, which is absent when the surface id
is not registered. -/
def effectiveAncestor (um : UIManager) (shadowNode : ShadowNode)
    (ancestorShadowNode : Option ShadowNode) : Option ShadowNode :=
  match ancestorShadowNode with
  | some ancestor => some ancestor
  | none =>
    match um.shadowTreeRegistry_.find shadowNode.getSurfaceId with
    | some shadowTree => some shadowTree.committedRoot
    | none => none

/-- The layout query in the words of the specification: the empty metrics if the node is not
layout-capable or the effective ancestor is absent or not layout-capable, otherwise the node's
metrics relative to the effective ancestor. -/
def relativeLayoutMetrics (um : UIManager) (ext : Externals) (shadowNode : ShadowNode)
    (ancestorShadowNode : Option ShadowNode) : LayoutMetrics :=
  match effectiveAncestor um shadowNode ancestorShadowNode with
  | none => EmptyLayoutMetrics
  | some ancestor =>
    if ext.isLayoutable shadowNode = false ∨ ext.isLayoutable ancestor = false then
      EmptyLayoutMetrics
    else
      ext.getRelativeLayoutMetrics shadowNode ancestor

end Spec

/-! ## Concrete collaborators used to evaluate the facade -/

namespace Sample

/-- A descriptor that parses raw props by adding them to the base props. -/
def viewDescriptor : ComponentDescriptor :=
  { cloneProps := fun base raw =>
      match base with
      | none => ⟨raw.blob⟩
      | some p => ⟨p.blob + raw.blob⟩
    createInitialState := fun p => ⟨p.blob + 1⟩
    createState := fun old raw => ⟨old.blob + raw.blob⟩
    createEventEmitter := fun target tag => ⟨target.blob + tag.toNat⟩
    createShadowNode := fun fragment =>
      ShadowNode.mk (fragment.tag.getD 0) (fragment.rootTag.getD 0) (fragment.props.getD ⟨0⟩)
        (fragment.eventEmitter.getD ⟨0⟩) (fragment.children.getD []) (fragment.localData.getD ⟨0⟩)
        (fragment.state.getD ⟨0⟩) "View" false
    cloneShadowNode := fun node fragment => node.clone fragment }

/-- Collaborators in which every node is a layout-capable view. -/
def externals : Externals :=
  { getComponentDescriptor := fun _ => viewDescriptor
    rootClone := fun root oldNode newNode =>
      if ShadowNode.beq root oldNode then some newNode else none
    isLayoutable := fun _ => true
    getRelativeLayoutMetrics := fun node ancestor => ⟨node.getProps.blob + ancestor.getProps.blob⟩ }

/-- A published view node with tag 100 on surface 1. -/
def node100 : ShadowNode := ShadowNode.mk 100 1 ⟨7⟩ ⟨3⟩ [] ⟨0⟩ ⟨8⟩ "View" true

/-- A view node with tag 101 on surface 1, still in its builder phase. -/
def node101 : ShadowNode := ShadowNode.mk 101 1 ⟨5⟩ ⟨4⟩ [] ⟨0⟩ ⟨6⟩ "View" false

/-- A facade with the view descriptor, surface 1 committed at `node100`, and a fresh delegate. -/
def manager : UIManager :=
  { componentDescriptorRegistry_ := { descriptors := [("View", viewDescriptor)] }
    shadowTreeRegistry_ :=
      { entries := [(1, { surfaceId := 1, committedRoot := node100, generation := 0 })] }
    delegate_ := some { received := [] } }

end Sample

/-! ## Lemmas on the registry visit -/

namespace ShadowTreeRegistry

theorem visitEntries_of_lookup_none {α : Type} (surfaceId : SurfaceId)
    (callback : ShadowTree → α → ShadowTree × α) (a : α) :
    ∀ es : List (SurfaceId × ShadowTree), es.lookup surfaceId = none →
      visitEntries surfaceId callback es a = (es, a)
  | [], _ => rfl
  | (key, tree) :: rest, h => by
    by_cases hk : surfaceId = key
    · simp [List.lookup, hk] at h
    · have hb : (surfaceId == key) = false := by simpa using hk
      have hrest : rest.lookup surfaceId = none := by simpa [List.lookup, hb] using h
      simp [visitEntries, hk, visitEntries_of_lookup_none surfaceId callback a rest hrest]

theorem visitEntries_of_lookup_some {α : Type} (surfaceId : SurfaceId)
    (callback : ShadowTree → α → ShadowTree × α) (a : α) (found : ShadowTree) :
    ∀ es : List (SurfaceId × ShadowTree), es.lookup surfaceId = some found →
      (visitEntries surfaceId callback es a).2 = (callback found a).2
  | [], h => by simp [List.lookup] at h
  | (key, tree) :: rest, h => by
    by_cases hk : surfaceId = key
    · have hf : tree = found := by simpa [List.lookup, hk] using h
      simp [visitEntries, hk, hf]
    · have hb : (surfaceId == key) = false := by simpa using hk
      have hrest : rest.lookup surfaceId = some found := by simpa [List.lookup, hb] using h
      simp [visitEntries, hk, visitEntries_of_lookup_some surfaceId callback a found rest hrest]

theorem visitEntries_of_fixed {α : Type} (surfaceId : SurfaceId)
    (callback : ShadowTree → α → ShadowTree × α) (a : α)
    (hfix : ∀ tree b, (callback tree b).1 = tree) :
    ∀ es : List (SurfaceId × ShadowTree), (visitEntries surfaceId callback es a).1 = es
  | [] => rfl
  | (key, tree) :: rest => by
    by_cases hk : surfaceId = key
    · simp [visitEntries, hk, hfix]
    · simp [visitEntries, hk, visitEntries_of_fixed surfaceId callback a hfix rest]

theorem visitEntries_lookup {α : Type} (surfaceId : SurfaceId)
    (callback : ShadowTree → α → ShadowTree × α) (a : α) (found : ShadowTree) :
    ∀ es : List (SurfaceId × ShadowTree), es.lookup surfaceId = some found →
      ∀ other : SurfaceId,
        (visitEntries surfaceId callback es a).1.lookup other =
          if other = surfaceId then some (callback found a).1 else es.lookup other
  | [], h, _ => by simp [List.lookup] at h
  | (key, tree) :: rest, h, other => by
    by_cases hk : surfaceId = key
    · have hf : tree = found := by simpa [List.lookup, hk] using h
      subst hk hf
      by_cases ho : other = surfaceId
      · simp [visitEntries, List.lookup, ho]
      · have hb : (other == surfaceId) = false := by simpa using ho
        simp [visitEntries, List.lookup, ho, hb]
    · have hb : (surfaceId == key) = false := by simpa using hk
      have hrest : rest.lookup surfaceId = some found := by simpa [List.lookup, hb] using h
      have ih := visitEntries_lookup surfaceId callback a found rest hrest other
      by_cases ho : other = key
      · have hne : ¬ other = surfaceId := fun hos => hk (hos.symm.trans ho)
        have hks : ¬ key = surfaceId := fun hkey => hk hkey.symm
        simp [visitEntries, List.lookup, hk, ho, hks]
      · have hob : (other == key) = false := by simpa using ho
        simp [visitEntries, List.lookup, hk, hob, ih]

theorem visitEntries_all {α : Type} (surfaceId : SurfaceId)
    (callback : ShadowTree → α → ShadowTree × α) (a : α) (good : ShadowTree → Bool)
    (hkeep : ∀ tree b, good tree = true → good (callback tree b).1 = true) :
    ∀ es : List (SurfaceId × ShadowTree), es.all (fun entry => good entry.2) = true →
      (visitEntries surfaceId callback es a).1.all (fun entry => good entry.2) = true
  | [], _ => rfl
  | (key, tree) :: rest, h => by
    simp only [List.all_cons, Bool.and_eq_true] at h
    by_cases hk : surfaceId = key
    · simp [visitEntries, hk, hkeep tree a h.1]
      simpa using h.2
    · have ih := visitEntries_all surfaceId callback a good hkeep rest h.2
      simp only [visitEntries, hk, if_false, List.all_cons, Bool.and_eq_true]
      exact ⟨h.1, ih⟩

theorem visit_find_of_find_some {α : Type} (registry : ShadowTreeRegistry)
    (surfaceId : SurfaceId) (callback : ShadowTree → α → ShadowTree × α) (a : α)
    (found : ShadowTree) (h : registry.find surfaceId = some found) (other : SurfaceId) :
    (registry.visit surfaceId callback a).1.find other =
      if other = surfaceId then some (callback found a).1 else registry.find other :=
  visitEntries_lookup surfaceId callback a found registry.entries h other

theorem visit_of_find_none {α : Type} (registry : ShadowTreeRegistry) (surfaceId : SurfaceId)
    (callback : ShadowTree → α → ShadowTree × α) (a : α)
    (h : registry.find surfaceId = none) : registry.visit surfaceId callback a = (registry, a) := by
  simp [visit, visitEntries_of_lookup_none surfaceId callback a registry.entries h]

theorem visit_of_find_some {α : Type} (registry : ShadowTreeRegistry) (surfaceId : SurfaceId)
    (callback : ShadowTree → α → ShadowTree × α) (a : α) (found : ShadowTree)
    (h : registry.find surfaceId = some found) :
    (registry.visit surfaceId callback a).2 = (callback found a).2 := by
  simp [visit, visitEntries_of_lookup_some surfaceId callback a found registry.entries h]

theorem visit_of_fixed {α : Type} (registry : ShadowTreeRegistry) (surfaceId : SurfaceId)
    (callback : ShadowTree → α → ShadowTree × α) (a : α)
    (hfix : ∀ tree b, (callback tree b).1 = tree) :
    (registry.visit surfaceId callback a).1 = registry := by
  simp [visit, visitEntries_of_fixed surfaceId callback a hfix registry.entries]

end ShadowTreeRegistry

/-! ## Lemmas on the commit engine -/

theorem ShadowTree.tryCommit_context {σ : Type} (shadowTree : ShadowTree)
    (transform : Transform σ) (startTime : Time) (ctx : CommitContext σ) :
    (shadowTree.tryCommit transform startTime ctx).2 =
      { frame := (transform shadowTree.committedRoot ctx.frame).2
        commits := ctx.commits ++
          [EngineCall.tryCommit shadowTree.surfaceId transform startTime ctx.frame] } := by
  unfold ShadowTree.tryCommit
  dsimp only
  split <;> rfl

theorem ShadowTree.tryCommit_of_abort {σ : Type} (shadowTree : ShadowTree)
    (transform : Transform σ) (startTime : Time) (ctx : CommitContext σ)
    (habort : (transform shadowTree.committedRoot ctx.frame).1 = none) :
    (shadowTree.tryCommit transform startTime ctx).1 = shadowTree := by
  unfold ShadowTree.tryCommit
  simp [habort]

theorem ShadowTree.tryCommit_tree {σ : Type} (shadowTree : ShadowTree)
    (transform : Transform σ) (startTime : Time) (ctx : CommitContext σ) :
    (shadowTree.tryCommit transform startTime ctx).1 =
      match (transform shadowTree.committedRoot ctx.frame).1 with
      | some newRoot =>
        { surfaceId := shadowTree.surfaceId
          committedRoot := newRoot.publish
          generation := shadowTree.generation + 1 }
      | none => shadowTree := by
  unfold ShadowTree.tryCommit
  dsimp only
  cases (transform shadowTree.committedRoot ctx.frame).1 <;> rfl

/-! ## Lemmas on node equality and reachability -/

namespace ShadowNode

mutual
theorem beq_iff_eq : ∀ a b : ShadowNode, beq a b = true ↔ a = b
  | mk t s p e cs l st c pub, mk t2 s2 p2 e2 cs2 l2 st2 c2 pub2 => by
    simp only [beq, Bool.and_eq_true, decide_eq_true_eq, beqList_iff_eq cs cs2, mk.injEq]
    tauto
theorem beqList_iff_eq : ∀ as bs : List ShadowNode, beqList as bs = true ↔ as = bs
  | [], [] => by simp [beqList]
  | [], _ :: _ => by simp [beqList]
  | _ :: _, [] => by simp [beqList]
  | a :: as, b :: bs => by
    simp only [beqList, Bool.and_eq_true, beq_iff_eq a b, beqList_iff_eq as bs, List.cons.injEq]
end

mutual
theorem allPublished_publish : ∀ node : ShadowNode, (publish node).allPublished = true
  | mk t s p e cs l st c pub => by
    simp only [publish, allPublished, Bool.true_and]
    exact allPublishedIn_publishAll cs
theorem allPublishedIn_publishAll : ∀ nodes : List ShadowNode,
    allPublishedIn (publishAll nodes) = true
  | [] => rfl
  | a :: as => by
    simp only [publishAll, allPublishedIn, Bool.and_eq_true]
    exact ⟨allPublished_publish a, allPublishedIn_publishAll as⟩
end

mutual
theorem isPublished_of_reaches : ∀ root target : ShadowNode,
    root.allPublished = true → root.reaches target = true → target.isPublished = true
  | mk t s p e cs l st c pub, target, hall, hreach => by
    simp only [allPublished, Bool.and_eq_true] at hall
    simp only [reaches, Bool.or_eq_true] at hreach
    rcases hreach with hroot | hbelow
    · rw [← (beq_iff_eq _ _).1 hroot]
      exact hall.1
    · exact isPublished_of_reachesAny cs target hall.2 hbelow
theorem isPublished_of_reachesAny : ∀ (roots : List ShadowNode) (target : ShadowNode),
    allPublishedIn roots = true → reachesAny roots target = true → target.isPublished = true
  | [], _, _, hreach => by simp [reachesAny] at hreach
  | a :: as, target, hall, hreach => by
    simp only [allPublishedIn, Bool.and_eq_true] at hall
    simp only [reachesAny, Bool.or_eq_true] at hreach
    rcases hreach with hfirst | hrest
    · exact isPublished_of_reaches a target hall.1 hfirst
    · exact isPublished_of_reachesAny as target hall.2 hrest
end

theorem reaches_self (node : ShadowNode) : node.reaches node = true := by
  cases node with
  | mk t s p e cs l st c pub =>
    simp only [reaches, Bool.or_eq_true]
    exact Or.inl ((beq_iff_eq _ _).2 rfl)

end ShadowNode

/-! ## Lemmas on publication by the commit engine -/

theorem ShadowTree.tryCommit_allPublished {σ : Type} (shadowTree : ShadowTree)
    (transform : Transform σ) (startTime : Time) (ctx : CommitContext σ)
    (h : shadowTree.committedRoot.allPublished = true) :
    (shadowTree.tryCommit transform startTime ctx).1.committedRoot.allPublished = true := by
  rw [ShadowTree.tryCommit_tree]
  split
  · exact ShadowNode.allPublished_publish _
  · exact h

theorem ShadowTreeRegistry.visit_tryCommit_allPublished {σ : Type}
    (registry : ShadowTreeRegistry) (surfaceId : SurfaceId) (transform : Transform σ)
    (startTime : Time) (ctx : CommitContext σ) (h : registry.allPublished = true) :
    (registry.visit surfaceId
      (fun shadowTree c => shadowTree.tryCommit transform startTime c) ctx).1.allPublished =
      true :=
  ShadowTreeRegistry.visitEntries_all surfaceId _ ctx
    (fun tree => tree.committedRoot.allPublished)
    (fun tree b hgood => ShadowTree.tryCommit_allPublished tree transform startTime b hgood)
    registry.entries h

theorem UIManager.setNativeProps_allPublished (um : UIManager) (ext : Externals) (now : Time)
    (node : ShadowNode) (rawProps : RawProps) (h : um.shadowTreeRegistry_.allPublished = true) :
    (um.setNativeProps ext now node rawProps).manager.shadowTreeRegistry_.allPublished = true :=
  ShadowTreeRegistry.visit_tryCommit_allPublished um.shadowTreeRegistry_ _ _ now _ h

theorem UIManager.updateState_allPublished (um : UIManager) (ext : Externals) (now : Time)
    (node : ShadowNode) (rawStateData : StateData)
    (h : um.shadowTreeRegistry_.allPublished = true) :
    (um.updateState ext now node rawStateData).manager.shadowTreeRegistry_.allPublished = true :=
  ShadowTreeRegistry.visit_tryCommit_allPublished um.shadowTreeRegistry_ _ _ now _ h

/-! ## Lemmas on the engine calls of the facade -/

namespace UIManager

theorem setNativeProps_commits (um : UIManager) (ext : Externals) (now : Time)
    (node : ShadowNode) (rawProps : RawProps) :
    (um.setNativeProps ext now node rawProps).commits =
      match um.shadowTreeRegistry_.find node.getSurfaceId with
      | some shadowTree =>
        [EngineCall.tryCommit shadowTree.surfaceId
          (fun root frame => (ext.rootClone root frame.shadowNode frame.newShadowNode, frame)) now
          { shadowNode := node
            newShadowNode := node.clone
              { props := some
                  ((ext.getComponentDescriptor node).cloneProps (some node.getProps) rawProps) } }]
      | none => [] := by
  cases h : um.shadowTreeRegistry_.find node.getSurfaceId with
  | none => simp [setNativeProps, ShadowTreeRegistry.visit_of_find_none _ _ _ _ h]
  | some shadowTree =>
    simp only [setNativeProps, ShadowTreeRegistry.visit_of_find_some _ _ _ _ _ h,
      ShadowTree.tryCommit_context]
    rfl

theorem updateState_commits (um : UIManager) (ext : Externals) (now : Time)
    (node : ShadowNode) (rawStateData : StateData) :
    (um.updateState ext now node rawStateData).commits =
      match um.shadowTreeRegistry_.find node.getSurfaceId with
      | some shadowTree =>
        [EngineCall.tryCommit shadowTree.surfaceId
          (fun root frame => (ext.rootClone root frame.shadowNode frame.newShadowNode, frame)) now
          { shadowNode := node
            newShadowNode := node.clone
              { state := some
                  ((ext.getComponentDescriptor node).createState node.getState rawStateData) } }]
      | none => [] := by
  cases h : um.shadowTreeRegistry_.find node.getSurfaceId with
  | none => simp [updateState, ShadowTreeRegistry.visit_of_find_none _ _ _ _ h]
  | some shadowTree =>
    simp only [updateState, ShadowTreeRegistry.visit_of_find_some _ _ _ _ _ h,
      ShadowTree.tryCommit_context]
    rfl

theorem getRelativeLayoutMetrics_commits (um : UIManager) (ext : Externals) (now : Time)
    (node : ShadowNode) (ancestor : Option ShadowNode) :
    (um.getRelativeLayoutMetrics ext now node ancestor).commits =
      match ancestor, um.shadowTreeRegistry_.find node.getSurfaceId with
      | none, some shadowTree =>
        [EngineCall.tryCommit shadowTree.surfaceId (fun root _ => (none, some root)) now none]
      | _, _ => [] := by
  cases ancestor with
  | some given => rfl
  | none =>
    cases h : um.shadowTreeRegistry_.find node.getSurfaceId with
    | none => simp [getRelativeLayoutMetrics, ShadowTreeRegistry.visit_of_find_none _ _ _ _ h]
    | some shadowTree =>
      simp only [getRelativeLayoutMetrics, ShadowTreeRegistry.visit_of_find_some _ _ _ _ _ h,
        ShadowTree.tryCommit_context]
      rfl

theorem leaf_update_unregistered {σ : Type} (um : UIManager) (surfaceId : SurfaceId)
    (callback : ShadowTree → CommitContext σ → ShadowTree × CommitContext σ)
    (ctx : CommitContext σ) (h : um.shadowTreeRegistry_.find surfaceId = none) :
    { um with shadowTreeRegistry_ := (um.shadowTreeRegistry_.visit surfaceId callback ctx).1 } =
      um := by
  rw [ShadowTreeRegistry.visit_of_find_none _ _ _ _ h]

end UIManager

/-! ## Node construction: `createNode`, `cloneNode` -/

/-- C3: when the registry lookup for the component name yields a descriptor, `createNode` returns
the node that descriptor's `createShadowNode` builds from the fragment with tag `tag`, surface id
`surfaceId`, props `cloneProps(none, rawProps)`, the event emitter
`createEventEmitter(eventTarget, tag)`, children and local data unset, and state
`createInitialState` of those same props; a delegate that is set receives
`uiManagerDidCreateShadowNode` exactly once, with that node, and an unset delegate stays unset;
both registries are untouched. -/
theorem createNode_builds_from_descriptor (um : UIManager) (tag : Tag) (name : ComponentName)
    (surfaceId : SurfaceId) (rawProps : RawProps) (eventTarget : EventTarget)
    (descriptor : ComponentDescriptor)
    (hreg : ComponentDescriptorRegistry.at um.componentDescriptorRegistry_ name =
      Except.ok descriptor) :
    (um.createNode tag name surfaceId rawProps eventTarget).1 =
        Except.ok (descriptor.createShadowNode
          { tag := some tag
            rootTag := some surfaceId
            props := some (descriptor.cloneProps none rawProps)
            eventEmitter := some (descriptor.createEventEmitter eventTarget tag)
            children := none
            localData := none
            state := some (descriptor.createInitialState (descriptor.cloneProps none rawProps)) })
      ∧ (um.createNode tag name surfaceId rawProps eventTarget).2.delegate_ =
        um.delegate_.map (fun delegate =>
          { received := delegate.received ++
              [DelegateCall.uiManagerDidCreateShadowNode (descriptor.createShadowNode
                { tag := some tag
                  rootTag := some surfaceId
                  props := some (descriptor.cloneProps none rawProps)
                  eventEmitter := some (descriptor.createEventEmitter eventTarget tag)
                  children := none
                  localData := none
                  state := some
                    (descriptor.createInitialState (descriptor.cloneProps none rawProps)) })] })
      ∧ (um.createNode tag name surfaceId rawProps eventTarget).2.shadowTreeRegistry_ =
        um.shadowTreeRegistry_
      ∧ (um.createNode tag name surfaceId rawProps eventTarget).2.componentDescriptorRegistry_ =
        um.componentDescriptorRegistry_ := by
  unfold UIManager.createNode
  rw [hreg]
  cases hd : um.delegate_ <;>
    simp [hd, UIManagerDelegate.uiManagerDidCreateShadowNode,
      ShadowNodeFragment.childrenPlaceholder, ShadowNodeFragment.localDataPlaceholder]

/-- Evaluation of C3 on the sample facade: creating the view 100 on surface 1. -/
theorem createNode_builds_from_descriptor_witness :
    ComponentDescriptorRegistry.at Sample.manager.componentDescriptorRegistry_ "View" =
        Except.ok Sample.viewDescriptor
      ∧ (Sample.manager.createNode 100 "View" 1 ⟨7⟩ ⟨2⟩).1 =
        Except.ok (ShadowNode.mk 100 1 ⟨7⟩ ⟨102⟩ [] ⟨0⟩ ⟨8⟩ "View" false) :=
  ⟨by rfl,
    (createNode_builds_from_descriptor Sample.manager 100 "View" 1 ⟨7⟩ ⟨2⟩ Sample.viewDescriptor
      (by rfl)).1⟩

/-- C4: `cloneNode` returns the descriptor's `cloneShadowNode` of the node and a fragment whose
children override is the given list, whose props override is `cloneProps(node.props, rawProps)`
when `rawProps` is present and unset when it is absent, and whose tag, surface id, event emitter,
local data and state overrides are unset; applied by the override rule, that fragment keeps the
node's tag, surface id and event emitter and installs the given children. -/
theorem cloneNode_applies_children_fragment (um : UIManager) (ext : Externals)
    (node : ShadowNode) (children : List ShadowNode) (rawProps : Option RawProps) :
    um.cloneNode ext node children rawProps =
        (ext.getComponentDescriptor node).cloneShadowNode node
          { tag := none
            rootTag := none
            props := rawProps.map
              ((ext.getComponentDescriptor node).cloneProps (some node.getProps))
            eventEmitter := none
            children := some children
            localData := none
            state := none }
      ∧ (node.clone
          { tag := none
            rootTag := none
            props := rawProps.map
              ((ext.getComponentDescriptor node).cloneProps (some node.getProps))
            eventEmitter := none
            children := some children
            localData := none
            state := none }) =
        ShadowNode.mk node.getTag node.getSurfaceId
          ((rawProps.map ((ext.getComponentDescriptor node).cloneProps (some node.getProps))).getD
            node.getProps)
          node.getEventEmitter children node.getLocalData node.getState node.getComponentName
          false := by
  constructor
  · cases rawProps <;>
      simp [UIManager.cloneNode, ShadowNodeFragment.tagPlaceholder,
        ShadowNodeFragment.surfaceIdPlaceholder, ShadowNodeFragment.propsPlaceholder,
        ShadowNodeFragment.eventEmitterPlaceholder]
  · simp [ShadowNode.clone]

/-- Evaluation of C4 on the sample facade: cloning `node100` with the child `node101` and raw
props 50 keeps tag 100, surface 1 and the event emitter, and installs the child and props 57. -/
theorem cloneNode_applies_children_fragment_witness :
    Sample.manager.cloneNode Sample.externals Sample.node100 [Sample.node101] (some ⟨50⟩) =
      ShadowNode.mk 100 1 ⟨57⟩ ⟨3⟩ [Sample.node101] ⟨0⟩ ⟨8⟩ "View" false :=
  (cloneNode_applies_children_fragment Sample.manager Sample.externals Sample.node100
    [Sample.node101] (some ⟨50⟩)).1.trans rfl

/-- C6: `createNode` fails with `ComponentNotFound` exactly when the component name has no
descriptor in the registry; it fails with nothing else, and when it fails it returns no node and
leaves the facade, the delegate's received notifications included, as it was. -/
theorem createNode_fails_iff_unregistered (um : UIManager) (tag : Tag) (name : ComponentName)
    (surfaceId : SurfaceId) (rawProps : RawProps) (eventTarget : EventTarget) :
    ((um.createNode tag name surfaceId rawProps eventTarget).1 =
          Except.error Error.ComponentNotFound ↔
        um.componentDescriptorRegistry_.find name = none)
      ∧ (match (um.createNode tag name surfaceId rawProps eventTarget).1 with
        | Except.error e =>
          e = Error.ComponentNotFound ∧
            (um.createNode tag name surfaceId rawProps eventTarget).2 = um
        | Except.ok _ => (um.componentDescriptorRegistry_.find name).isSome = true) := by
  unfold UIManager.createNode ComponentDescriptorRegistry.at
  cases hf : um.componentDescriptorRegistry_.find name with
  | none => simp
  | some descriptor => cases hd : um.delegate_ <;> simp

/-- Evaluation of C6 on the sample facade: the name "Text" has no descriptor, and creating a
node of that type reports `ComponentNotFound` and leaves the facade as it was. -/
theorem createNode_fails_iff_unregistered_witness :
    Sample.manager.componentDescriptorRegistry_.find "Text" = none
      ∧ (Sample.manager.createNode 7 "Text" 1 ⟨0⟩ ⟨0⟩).1 = Except.error Error.ComponentNotFound
      ∧ (Sample.manager.createNode 7 "Text" 1 ⟨0⟩ ⟨0⟩).2 = Sample.manager :=
  ⟨by rfl,
    (createNode_fails_iff_unregistered Sample.manager 7 "Text" 1 ⟨0⟩ ⟨0⟩).1.2 (by rfl),
    (createNode_fails_iff_unregistered Sample.manager 7 "Text" 1 ⟨0⟩ ⟨0⟩).2.2⟩

/-! ## Surface completion: `completeSurface` -/

/-- C8: `completeSurface` is a notification and nothing else: a delegate that is set receives
`uiManagerDidFinishTransaction` exactly once, with the surface id, the root children and the
clock reading; an unset delegate stays unset; no engine receives a `tryCommit`, and the shadow
tree registry, hence every committed root and generation, is as before. -/
theorem completeSurface_only_notifies (um : UIManager) (now : Time) (surfaceId : SurfaceId)
    (rootChildren : List ShadowNode) :
    (um.completeSurface now surfaceId rootChildren).manager.delegate_ =
        um.delegate_.map (fun delegate =>
          { received := delegate.received ++
              [DelegateCall.uiManagerDidFinishTransaction surfaceId rootChildren now] })
      ∧ (um.completeSurface now surfaceId rootChildren).commits = []
      ∧ (um.completeSurface now surfaceId rootChildren).manager.shadowTreeRegistry_ =
        um.shadowTreeRegistry_
      ∧ (um.completeSurface now surfaceId rootChildren).manager.componentDescriptorRegistry_ =
        um.componentDescriptorRegistry_ := by
  unfold UIManager.completeSurface
  cases hd : um.delegate_ <;> simp [hd, UIManagerDelegate.uiManagerDidFinishTransaction]

/-- Evaluation of C8 on the sample facade: completing surface 1 with the root child `node100`
at time 5 delivers that one notification and makes no engine call. -/
theorem completeSurface_only_notifies_witness :
    (Sample.manager.completeSurface 5 1 [Sample.node100]).manager.delegate_ =
        some { received := [DelegateCall.uiManagerDidFinishTransaction 1 [Sample.node100] 5] }
      ∧ (Sample.manager.completeSurface 5 1 [Sample.node100]).commits = [] :=
  ⟨(completeSurface_only_notifies Sample.manager 5 1 [Sample.node100]).1,
    (completeSurface_only_notifies Sample.manager 5 1 [Sample.node100]).2.1⟩

/-! ## The builder phase: `appendChild` -/

/-- C1: `setNativeProps` derives the leaf that has the node's tag, surface id, event emitter,
children, local data, state and component type and the props `cloneProps(node.props, rawProps)`.
If an engine is registered for the node's surface id, that engine receives exactly one
`tryCommit`, with the clock reading as start time, the node and the derived leaf as captured
variables, and a transform that maps every root to `root.clone(node, leaf)`; afterwards the
registry holds, under that surface id, the engine as this one `tryCommit` left it (the published
`root.clone(node, leaf)` as committed root and the generation incremented, or the engine as it
was when the clone does not exist), every other surface id is mapped as before, and the
descriptor registry and the delegate are untouched.  If no engine is registered, no engine
receives a `tryCommit` and the facade is left as it was. -/
theorem setNativeProps_submits_leaf_replacement (um : UIManager) (ext : Externals) (now : Time)
    (node : ShadowNode) (rawProps : RawProps) :
    match um.shadowTreeRegistry_.find node.getSurfaceId with
    | some shadowTree =>
      ∃ (leaf : ShadowNode) (transform : Transform LeafCapture),
        leaf =
            ShadowNode.mk node.getTag node.getSurfaceId
              ((ext.getComponentDescriptor node).cloneProps (some node.getProps) rawProps)
              node.getEventEmitter node.getChildren node.getLocalData node.getState
              node.getComponentName false
          ∧ (um.setNativeProps ext now node rawProps).commits =
            [EngineCall.tryCommit shadowTree.surfaceId transform now
              { shadowNode := node, newShadowNode := leaf }]
          ∧ (∀ (root : RootShadowNode) (frame : LeafCapture),
            transform root frame =
              (ext.rootClone root frame.shadowNode frame.newShadowNode, frame))
          ∧ (∀ other : SurfaceId,
            (um.setNativeProps ext now node rawProps).manager.shadowTreeRegistry_.find other =
              if other = node.getSurfaceId then
                some (shadowTree.tryCommit transform now
                  { frame := { shadowNode := node, newShadowNode := leaf }, commits := [] }).1
              else um.shadowTreeRegistry_.find other)
          ∧ (shadowTree.tryCommit transform now
              { frame := { shadowNode := node, newShadowNode := leaf }, commits := [] }).1 =
            (match ext.rootClone shadowTree.committedRoot node leaf with
              | some newRoot =>
                { surfaceId := shadowTree.surfaceId
                  committedRoot := newRoot.publish
                  generation := shadowTree.generation + 1 }
              | none => shadowTree)
          ∧ (um.setNativeProps ext now node rawProps).manager.componentDescriptorRegistry_ =
            um.componentDescriptorRegistry_
          ∧ (um.setNativeProps ext now node rawProps).manager.delegate_ = um.delegate_
    | none =>
      (um.setNativeProps ext now node rawProps).commits = []
        ∧ (um.setNativeProps ext now node rawProps).manager = um := by
  have hcommits := UIManager.setNativeProps_commits um ext now node rawProps
  cases h : um.shadowTreeRegistry_.find node.getSurfaceId with
  | none =>
    rw [h] at hcommits
    exact ⟨hcommits, UIManager.leaf_update_unregistered um _ _ _ h⟩
  | some shadowTree =>
    rw [h] at hcommits
    exact ⟨_, _, rfl, hcommits, fun _ _ => rfl,
      fun other => ShadowTreeRegistry.visit_find_of_find_some _ _ _ _ _ h other,
      ShadowTree.tryCommit_tree _ _ _ _, rfl, rfl⟩

/-- Evaluation of C1 on the sample facade: setting raw props 50 on `node100` at time 5 submits
one `tryCommit` to the engine of surface 1, with the leaf that differs from `node100` in its
props, now 57; afterwards that engine has the published leaf as committed root and generation
1. -/
theorem setNativeProps_submits_leaf_replacement_witness :
    ∃ transform : Transform LeafCapture,
      (Sample.manager.setNativeProps Sample.externals 5 Sample.node100 ⟨50⟩).commits =
          [EngineCall.tryCommit 1 transform 5
            { shadowNode := Sample.node100
              newShadowNode := ShadowNode.mk 100 1 ⟨57⟩ ⟨3⟩ [] ⟨0⟩ ⟨8⟩ "View" false }]
        ∧ (∀ (root : RootShadowNode) (frame : LeafCapture),
          transform root frame =
            (Sample.externals.rootClone root frame.shadowNode frame.newShadowNode, frame))
        ∧ (Sample.manager.setNativeProps Sample.externals 5 Sample.node100
            ⟨50⟩).manager.shadowTreeRegistry_.find 1 =
          some
            { surfaceId := 1
              committedRoot := ShadowNode.mk 100 1 ⟨57⟩ ⟨3⟩ [] ⟨0⟩ ⟨8⟩ "View" true
              generation := 1 } := by
  obtain ⟨leaf, transform, hleaf, hcommits, htransform, hfind, hengine, _, _⟩ :=
    setNativeProps_submits_leaf_replacement Sample.manager Sample.externals 5 Sample.node100 ⟨50⟩
  subst hleaf
  exact ⟨transform, hcommits, htransform, ((hfind 1).trans (if_pos rfl)).trans
    (congrArg some hengine)⟩

/-- C2: `updateState` follows the pattern of `setNativeProps`.  Its derived leaf has the node's
tag, surface id, props, event emitter, children, local data and component type and the state
`createState(node.state, rawStateData)`.  If an engine is registered for the node's surface id,
it receives exactly one `tryCommit` from either operation, and the two operations hand it one and
the same transform, the map from a root to `root.clone(node, leaf)` of the captured node and
leaf; after `updateState` the registry holds, under that surface id, the engine as this one
`tryCommit` left it (the published `root.clone(node, leaf)` as committed root and the generation
incremented, or the engine as it was when the clone does not exist), every other surface id is
mapped as before, and the descriptor registry and the delegate are untouched.  If no engine is
registered, no engine receives a `tryCommit` and the facade is left as it was. -/
theorem updateState_follows_setNativeProps_pattern (um : UIManager) (ext : Externals)
    (now : Time) (node : ShadowNode) (rawStateData : StateData) (rawProps : RawProps) :
    match um.shadowTreeRegistry_.find node.getSurfaceId with
    | some shadowTree =>
      ∃ (leaf : ShadowNode) (transform : Transform LeafCapture),
        leaf =
            ShadowNode.mk node.getTag node.getSurfaceId node.getProps node.getEventEmitter
              node.getChildren node.getLocalData
              ((ext.getComponentDescriptor node).createState node.getState rawStateData)
              node.getComponentName false
          ∧ (um.updateState ext now node rawStateData).commits =
            [EngineCall.tryCommit shadowTree.surfaceId transform now
              { shadowNode := node, newShadowNode := leaf }]
          ∧ (∃ propsLeaf : ShadowNode,
            (um.setNativeProps ext now node rawProps).commits =
              [EngineCall.tryCommit shadowTree.surfaceId transform now
                { shadowNode := node, newShadowNode := propsLeaf }])
          ∧ (∀ (root : RootShadowNode) (frame : LeafCapture),
            transform root frame =
              (ext.rootClone root frame.shadowNode frame.newShadowNode, frame))
          ∧ (∀ other : SurfaceId,
            (um.updateState ext now node rawStateData).manager.shadowTreeRegistry_.find other =
              if other = node.getSurfaceId then
                some (shadowTree.tryCommit transform now
                  { frame := { shadowNode := node, newShadowNode := leaf }, commits := [] }).1
              else um.shadowTreeRegistry_.find other)
          ∧ (shadowTree.tryCommit transform now
              { frame := { shadowNode := node, newShadowNode := leaf }, commits := [] }).1 =
            (match ext.rootClone shadowTree.committedRoot node leaf with
              | some newRoot =>
                { surfaceId := shadowTree.surfaceId
                  committedRoot := newRoot.publish
                  generation := shadowTree.generation + 1 }
              | none => shadowTree)
          ∧ (um.updateState ext now node rawStateData).manager.componentDescriptorRegistry_ =
            um.componentDescriptorRegistry_
          ∧ (um.updateState ext now node rawStateData).manager.delegate_ = um.delegate_
    | none =>
      (um.updateState ext now node rawStateData).commits = []
        ∧ (um.updateState ext now node rawStateData).manager = um := by
  have hstate := UIManager.updateState_commits um ext now node rawStateData
  have hprops := UIManager.setNativeProps_commits um ext now node rawProps
  cases h : um.shadowTreeRegistry_.find node.getSurfaceId with
  | none =>
    rw [h] at hstate
    exact ⟨hstate, UIManager.leaf_update_unregistered um _ _ _ h⟩
  | some shadowTree =>
    rw [h] at hstate hprops
    exact ⟨_, _, rfl, hstate, ⟨_, hprops⟩, fun _ _ => rfl,
      fun other => ShadowTreeRegistry.visit_find_of_find_some _ _ _ _ _ h other,
      ShadowTree.tryCommit_tree _ _ _ _, rfl, rfl⟩

/-- Evaluation of C2 on the sample facade: updating the state of `node100` with payload 9 at
time 5 submits one `tryCommit` to the engine of surface 1, with the leaf that differs from
`node100` in its state, now 17, and with the transform `setNativeProps` submits; afterwards that
engine has the published leaf as committed root and generation 1. -/
theorem updateState_follows_setNativeProps_pattern_witness :
    ∃ transform : Transform LeafCapture,
      (Sample.manager.updateState Sample.externals 5 Sample.node100 ⟨9⟩).commits =
          [EngineCall.tryCommit 1 transform 5
            { shadowNode := Sample.node100
              newShadowNode := ShadowNode.mk 100 1 ⟨7⟩ ⟨3⟩ [] ⟨0⟩ ⟨17⟩ "View" false }]
        ∧ (∃ propsLeaf : ShadowNode,
          (Sample.manager.setNativeProps Sample.externals 5 Sample.node100 ⟨50⟩).commits =
            [EngineCall.tryCommit 1 transform 5
              { shadowNode := Sample.node100, newShadowNode := propsLeaf }])
        ∧ (∀ (root : RootShadowNode) (frame : LeafCapture),
          transform root frame =
            (Sample.externals.rootClone root frame.shadowNode frame.newShadowNode, frame))
        ∧ (Sample.manager.updateState Sample.externals 5 Sample.node100
            ⟨9⟩).manager.shadowTreeRegistry_.find 1 =
          some
            { surfaceId := 1
              committedRoot := ShadowNode.mk 100 1 ⟨7⟩ ⟨3⟩ [] ⟨0⟩ ⟨17⟩ "View" true
              generation := 1 } := by
  obtain ⟨leaf, transform, hleaf, hcommits, hprops, htransform, hfind, hengine, _, _⟩ :=
    updateState_follows_setNativeProps_pattern Sample.manager Sample.externals 5 Sample.node100
      ⟨9⟩ ⟨50⟩
  subst hleaf
  exact ⟨transform, hcommits, hprops, htransform, ((hfind 1).trans (if_pos rfl)).trans
    (congrArg some hengine)⟩

/-! ## The layout query: `getRelativeLayoutMetrics` -/

/-- C5: `getRelativeLayoutMetrics` always returns a value, and that value is the one the
specification words: with the effective ancestor being the given ancestor or, when omitted, the
committed root of the node's surface (absent when the surface id is not registered), the result
is `EmptyLayoutMetrics` if the node is not layout-capable or the effective ancestor is absent or
not layout-capable, and otherwise the node's metrics relative to the effective ancestor. -/
theorem getRelativeLayoutMetrics_value (um : UIManager) (ext : Externals) (now : Time)
    (node : ShadowNode) (ancestor : Option ShadowNode) :
    (um.getRelativeLayoutMetrics ext now node ancestor).value =
      Spec.relativeLayoutMetrics um ext node ancestor := by
  cases ancestor with
  | some given =>
    cases hn : ext.isLayoutable node <;> cases ha : ext.isLayoutable given <;>
      simp [UIManager.getRelativeLayoutMetrics, Spec.relativeLayoutMetrics,
        Spec.effectiveAncestor, Externals.dynamicCastLayoutable, hn, ha]
  | none =>
    cases h : um.shadowTreeRegistry_.find node.getSurfaceId with
    | none =>
      cases hn : ext.isLayoutable node <;>
        simp [UIManager.getRelativeLayoutMetrics, Spec.relativeLayoutMetrics,
          Spec.effectiveAncestor, Externals.dynamicCastLayoutable, hn, h,
          ShadowTreeRegistry.visit_of_find_none _ _ _ _ h]
    | some shadowTree =>
      cases hn : ext.isLayoutable node <;>
        cases ha : ext.isLayoutable shadowTree.committedRoot <;>
        simp [UIManager.getRelativeLayoutMetrics, Spec.relativeLayoutMetrics,
          Spec.effectiveAncestor, Externals.dynamicCastLayoutable, hn, ha, h,
          ShadowTreeRegistry.visit_of_find_some _ _ _ _ _ h, ShadowTree.tryCommit_context]

/-- Evaluation of C5 on the sample facade: with the ancestor omitted, the metrics of `node101`
are taken relative to the committed root of surface 1, `node100`. -/
theorem getRelativeLayoutMetrics_value_witness :
    (Sample.manager.getRelativeLayoutMetrics Sample.externals 5 Sample.node101 none).value =
      Sample.externals.getRelativeLayoutMetrics Sample.node101 Sample.node100 :=
  (getRelativeLayoutMetrics_value Sample.manager Sample.externals 5 Sample.node101 none).trans rfl

/-- C9: `getRelativeLayoutMetrics` leaves the facade as it was, so every registered surface has
the committed root and generation it had before.  It hands a transform to `tryCommit` only when
the ancestor is omitted and the node's surface is registered, exactly once, and that transform
returns abort for every root. -/
theorem getRelativeLayoutMetrics_publishes_nothing (um : UIManager) (ext : Externals)
    (now : Time) (node : ShadowNode) (ancestor : Option ShadowNode) :
    (um.getRelativeLayoutMetrics ext now node ancestor).manager = um
      ∧ (match ancestor, um.shadowTreeRegistry_.find node.getSurfaceId with
        | none, some shadowTree =>
          ∃ transform : Transform (Option ShadowNode),
            (um.getRelativeLayoutMetrics ext now node ancestor).commits =
                [EngineCall.tryCommit shadowTree.surfaceId transform now none]
              ∧ ∀ (root : RootShadowNode) (frame : Option ShadowNode),
                (transform root frame).1 = none
        | _, _ => (um.getRelativeLayoutMetrics ext now node ancestor).commits = []) := by
  cases ancestor with
  | some given => exact ⟨rfl, rfl⟩
  | none =>
    constructor
    · simp only [UIManager.getRelativeLayoutMetrics]
      rw [ShadowTreeRegistry.visit_of_fixed]
      intro tree ctx
      exact ShadowTree.tryCommit_of_abort tree _ now ctx rfl
    · have hcommits := UIManager.getRelativeLayoutMetrics_commits um ext now node none
      cases h : um.shadowTreeRegistry_.find node.getSurfaceId with
      | none =>
        rw [h] at hcommits
        exact hcommits
      | some shadowTree =>
        rw [h] at hcommits
        exact ⟨_, hcommits, fun _ _ => rfl⟩

/-- Evaluation of C9 on the sample facade: the layout query on `node101` with the ancestor
omitted leaves the facade as it was and submits one transform, which always aborts. -/
theorem getRelativeLayoutMetrics_publishes_nothing_witness :
    (Sample.manager.getRelativeLayoutMetrics Sample.externals 5 Sample.node101 none).manager =
        Sample.manager
      ∧ ∃ transform : Transform (Option ShadowNode),
        (Sample.manager.getRelativeLayoutMetrics Sample.externals 5 Sample.node101 none).commits =
            [EngineCall.tryCommit 1 transform 5 none]
          ∧ ∀ (root : RootShadowNode) (frame : Option ShadowNode),
            (transform root frame).1 = none :=
  getRelativeLayoutMetrics_publishes_nothing Sample.manager Sample.externals 5 Sample.node101 none

/-! ## Purity of the transforms -/

/-- C10, as stated, fails: on the sample facade the transform that the layout query on node 101
hands to `tryCommit`, invoked on the root `node100` while the caller's ancestor variable is null,
leaves that variable non-null. -/
theorem layout_query_transform_writes_ancestor :
    ∃ c ∈ (Sample.manager.getRelativeLayoutMetrics Sample.externals 5 Sample.node101 none).commits,
      (c.transform Sample.node100 none).2 = some Sample.node100
        ∧ (c.transform Sample.node100 none).2 ≠ none :=
  ⟨EngineCall.tryCommit 1 (fun root _ => (none, some root)) 5 none,
    List.mem_singleton.2 rfl, rfl, fun h => Option.noConfusion h⟩

/-- C10, amended: every transform that `setNativeProps` and `updateState` hand to `tryCommit`
leaves the captured variables as they were, and every transform that `getRelativeLayoutMetrics`
hands to `tryCommit` returns abort and writes one captured variable, the ancestor, which it sets
to the input root; for each of them, a second invocation on the same root, run on the variables
the first one left, returns what the first returned and leaves the variables as the first left
them. -/
theorem transforms_write_at_most_the_ancestor (um : UIManager) (ext : Externals) (now : Time)
    (node : ShadowNode) (rawProps : RawProps) (rawStateData : StateData)
    (ancestor : Option ShadowNode) :
    (∀ c ∈ (um.setNativeProps ext now node rawProps).commits,
        ∀ (root : RootShadowNode) (frame : LeafCapture),
          (c.transform root frame).2 = frame
            ∧ c.transform root (c.transform root frame).2 = c.transform root frame)
      ∧ (∀ c ∈ (um.updateState ext now node rawStateData).commits,
        ∀ (root : RootShadowNode) (frame : LeafCapture),
          (c.transform root frame).2 = frame
            ∧ c.transform root (c.transform root frame).2 = c.transform root frame)
      ∧ (∀ c ∈ (um.getRelativeLayoutMetrics ext now node ancestor).commits,
        ∀ (root : RootShadowNode) (frame : Option ShadowNode),
          c.transform root frame = (none, some root)
            ∧ c.transform root (c.transform root frame).2 = c.transform root frame) := by
  refine ⟨?_, ?_, ?_⟩
  · intro c hc root frame
    rw [UIManager.setNativeProps_commits] at hc
    cases h : um.shadowTreeRegistry_.find node.getSurfaceId with
    | none =>
      rw [h] at hc
      cases hc
    | some shadowTree =>
      rw [h] at hc
      rw [List.mem_singleton.1 hc]
      exact ⟨rfl, rfl⟩
  · intro c hc root frame
    rw [UIManager.updateState_commits] at hc
    cases h : um.shadowTreeRegistry_.find node.getSurfaceId with
    | none =>
      rw [h] at hc
      cases hc
    | some shadowTree =>
      rw [h] at hc
      rw [List.mem_singleton.1 hc]
      exact ⟨rfl, rfl⟩
  · intro c hc root frame
    rw [UIManager.getRelativeLayoutMetrics_commits] at hc
    cases ancestor with
    | some given => cases hc
    | none =>
      cases h : um.shadowTreeRegistry_.find node.getSurfaceId with
      | none =>
        rw [h] at hc
        cases hc
      | some shadowTree =>
        rw [h] at hc
        rw [List.mem_singleton.1 hc]
        exact ⟨rfl, rfl⟩

/-- Evaluation of the amended C10 on the sample facade: the transform handed to `tryCommit` by
the layout query on node 101 returns abort on the root `node100` and sets the ancestor to it. -/
theorem transforms_write_at_most_the_ancestor_witness :
    ∃ c ∈ (Sample.manager.getRelativeLayoutMetrics Sample.externals 5 Sample.node101 none).commits,
      c.transform Sample.node100 none = (none, some Sample.node100) :=
  ⟨EngineCall.tryCommit 1 (fun root _ => (none, some root)) 5 none,
    List.mem_singleton.2 rfl,
    ((transforms_write_at_most_the_ancestor Sample.manager Sample.externals 5 Sample.node101 ⟨0⟩
      ⟨0⟩ none).2.2 _ (List.mem_singleton.2 rfl) Sample.node100 none).1⟩

end facebook.react
